import Mathlib

/-!
Verification development for the `nonebot-adapter-mail` repository.

Shallow embedding of the two source modules:

* `src/nonebot/adapters/mail/message.py` — the message-segment model
  (`MessageSegment`, `Message`, concatenation, `_construct`);
* `src/nonebot/adapters/mail/bot.py` — the IMAP/SMTP `Bot` operations
  (`login`, `logout`, `select_mailbox`, `get_unseen_uids`,
  `get_mail_of_uid`, `get_mail_of_id_in_mailbox`, `get_mail_of_id`,
  `send_mail`) and the event checks (`_check_to_me`, `_check_reply`,
  `handle_event`).

Python strings are modelled as Lean `String`; the Python string
primitives used by the source (`startswith`, `endswith`, `s[1:-1]`,
`in`, `split`) are re-implemented over `List Char` so that every
definition evaluates by kernel reduction.  Asynchronous I/O is modelled
by passing the server's behaviour in as data (`ImapClient` holds, for
each wire request, the `IMAPResponse` the server would return) and by
returning `Except BotError` for paths that raise Python exceptions.
-/

namespace MailAdapter

/-! ## Python string primitives -/

/-- Python `s.startswith(p)`. -/
def pyStartsWith (s p : String) : Bool :=
  p.data.isPrefixOf s.data

/-- Python `s.endswith(p)`. -/
def pyEndsWith (s p : String) : Bool :=
  p.data.isSuffixOf s.data

/-- Python `s[1:-1]`: drop the first and the last character. -/
def pyInnerSlice (s : String) : String :=
  String.mk ((s.data.drop 1).dropLast)

/-- Python `c in s` for a single character `c` (substring test of a
one-character string is character membership). -/
def pyContainsChar (s : String) (c : Char) : Bool :=
  s.data.contains c

/-- Python `str.isspace` for the ASCII whitespace characters recognised by
`str.split()` with no argument. -/
def pyIsSpace (c : Char) : Bool :=
  c == ' ' || c == '\t' || c == '\n' || c == '\r' || c == '\x0b' || c == '\x0c'

/-- Helper for `pySplitWs`: accumulate the current token (reversed) while
scanning the character list. -/
def splitWsAux : List Char → List Char → List String
  | [], acc => if acc.isEmpty then [] else [String.mk acc.reverse]
  | c :: cs, acc =>
    if pyIsSpace c then
      if acc.isEmpty then splitWsAux cs [] else String.mk acc.reverse :: splitWsAux cs []
    else splitWsAux cs (c :: acc)

/-- Python `s.split()` (no argument): split on runs of whitespace, dropping
empty tokens. -/
def pySplitWs (s : String) : List String :=
  splitWsAux s.data []

/-- Helper for `pySplitSep`: scan the list one character at a time.  `skip`
counts separator characters still to be consumed after a match was emitted
(this keeps the recursion structural); a separator is matched greedily
left-to-right and non-overlapping, as Python's `str.split` does. -/
def pySplitSepAux (sep : List Char) : List Char → List Char → Nat → List String
  | [], acc, _ => [String.mk acc.reverse]
  | c :: cs, acc, skip =>
    match skip with
    | n + 1 => pySplitSepAux sep cs acc n
    | 0 =>
      if sep.isPrefixOf (c :: cs) then
        String.mk acc.reverse :: pySplitSepAux sep cs [] (sep.length - 1)
      else
        pySplitSepAux sep cs (c :: acc) 0

/-- Python `s.split(sep)` for a nonempty separator: keeps empty fields, so
the result is always nonempty. -/
def pySplitSep (s : String) (sep : String) : List String :=
  pySplitSepAux sep.data s.data [] 0

/-! ## Message segment model (`message.py`) -/

/-- MessageSegment is the tagged variant over text, html and attachment
segments (`message.py` lines 12-122).  The attachment carries raw bytes
(`data`), a `name` and an optional `content_type`, as built by
`MessageSegment.attachment`. -/
inductive MessageSegment where
  | text (text : String)
  | html (html : String)
  | attachment (data : List Nat) (name : String) (content_type : Option String)
deriving DecidableEq

/-- Message is an ordered sequence of segments (`message.py` line 125,
`Message(BaseMessage[MessageSegment])`, a `list` subclass). -/
abbrev Message := List MessageSegment

/-- AddOperand is the union type accepted by `Message.__add__`
(`Union[str, MessageSegment, Iterable[MessageSegment]]`). -/
inductive AddOperand where
  | str (s : String)
  | seg (s : MessageSegment)
  | segs (l : List MessageSegment)
deriving DecidableEq

/-- Models `Message.__add__` (`message.py` lines 131-137): a `str` operand is
first converted by `MessageSegment.text(other)` and then handed to the base
class `BaseMessage.__add__`, which appends a single segment; a segment is
appended; an iterable of segments is concatenated.  Note the `str` branch
does not go through `Message._construct`: `MessageSegment.text("")` is a
genuine (empty-text) segment and is appended. -/
def Message.add (a : Message) : AddOperand → Message
  | .str s => a ++ [MessageSegment.text s]
  | .seg s => a ++ [s]
  | .segs l => a ++ l

/-- Models `Message._construct` (`message.py` lines 147-151): building a
Message from a bare string yields one text segment when the string is truthy
(nonempty) and no segment at all when it is empty (`if msg:`). -/
def Message.construct (msg : String) : Message :=
  if msg = "" then [] else [MessageSegment.text msg]

/-! ## Mail model (`model.py`, used through `bot.py`) -/

/-- User is the parsed address entity: `id` is the mailbox address, `name`
the optional display name. -/
structure User where
  id : String
  name : Option String
deriving DecidableEq

/-- Mail is the parsed-mail entity; only the fields read by `bot.py` are
modelled (`id`, `sender`, `in_reply_to`).  A pydantic model instance is
always truthy, so Python `if mail:` is `Option.isSome` here. -/
structure Mail where
  id : String
  sender : User
  in_reply_to : Option String
deriving DecidableEq

/-- Modelled from the spec: `parse_byte_mail` lives in `utils.py`, which is
not included under `src/`; per spec section 4.2 it is a total function from
raw bytes to `Mail` ("must never fail on malformed input").  The claims
settled here depend only on that totality, so the parser is passed around as
an arbitrary total function of this type. -/
def ParseByteMail : Type :=
  String → Mail

/-! ## IMAP session model (`bot.py`) -/

/-- IMAPResponse is the `aioimaplib` response: a `result` status string
("OK" on success) and the response `lines` (raw byte lines, modelled as
strings in decoded form). -/
structure IMAPResponse where
  result : String
  lines : List String
deriving DecidableEq

/-- SelState is the connection-level selected-mailbox state: `some wire`
after a successful `SELECT wire`, `none` when no mailbox is selected
(RFC 3501: a failed SELECT leaves the connection with no selected
mailbox). -/
abbrev SelState := Option String

/-- ImapClient models an initialized `aioimaplib.IMAP4` client together with
the server behind it: each field gives the server's response to one wire
request.  `searchResp` and `fetchResp` additionally depend on the
selected-mailbox state the request is issued in. -/
structure ImapClient where
  loginResp : IMAPResponse
  idResp : IMAPResponse
  logoutResp : IMAPResponse
  selectResp : String → IMAPResponse
  searchResp : SelState → String → IMAPResponse
  fetchResp : SelState → String → IMAPResponse
  listResp : IMAPResponse

/-- BotInfo is the account configuration record consumed by `bot.py`:
`id` is the account address, `subject` the configured default subject. -/
structure BotInfo where
  id : String
  subject : String
deriving DecidableEq

/-- Bot models the adapter's `Bot` object: `self_id`, the `bot_info`
configuration and the optional IMAP client (`None` before the adapter
initializes it; the `protocol is None` sub-case of `get_mail_of_id` is
collapsed into the `none` case). -/
structure Bot where
  self_id : String
  bot_info : BotInfo
  imap_client : Option ImapClient

/-- BotError is the exception taxonomy raised by `bot.py`:
`UninitializedException`, `ActionFailed((self_id, response))` for IMAP
protocol failures, `ActionFailed(dict)` for SMTP per-recipient failures,
`NetworkError`, `ValueError`, the latent `IndexError` of
`get_unseen_uids` on an empty `lines` list, and any other Python
exception propagating unchanged (tagged). -/
inductive BotError where
  | uninitializedException (what : String)
  | actionFailed (self_id : String) (response : IMAPResponse)
  | actionFailedSmtp (errors : List (String × Int × String))
  | networkError
  | valueError (msg : String)
  | indexError
  | otherException (tag : Nat)
deriving DecidableEq

/-- Models the mailbox-name normalization inside `Bot.select_mailbox`
(`bot.py` lines 297-300): strip one pair of enclosing quote characters when
the name both starts and ends with `"`, then quote the result exactly when
it contains a space.  The returned string is the argument passed to
`imap_client.select`, i.e. the mailbox name as it appears in the wire
command. -/
def mailboxWire (mailbox : String) : String :=
  let m :=
    if pyStartsWith mailbox "\"" && pyEndsWith mailbox "\"" then pyInnerSlice mailbox
    else mailbox
  if pyContainsChar m ' ' then "\"" ++ m ++ "\"" else m

/-- Models `Bot.login` (`bot.py` lines 217-265): requires an initialized
client; a non-OK LOGIN response returns `false` (soft failure), then the ID
extension command is issued and a non-OK response also returns `false`;
otherwise `true`. -/
def Bot.login (bot : Bot) : Except BotError Bool :=
  match bot.imap_client with
  | none => .error (.uninitializedException "IMAP client")
  | some c =>
    if c.loginResp.result ≠ "OK" then .ok false
    else if c.idResp.result ≠ "OK" then .ok false
    else .ok true

/-- Models `Bot.logout` (`bot.py` lines 267-287): requires an initialized
client; a non-OK LOGOUT response returns `false`, otherwise the connection
is closed and `true` returned. -/
def Bot.logout (bot : Bot) : Except BotError Bool :=
  match bot.imap_client with
  | none => .error (.uninitializedException "IMAP client")
  | some c =>
    if c.logoutResp.result ≠ "OK" then .ok false
    else .ok true

/-- Models `Bot.select_mailbox` (`bot.py` lines 289-322): requires an
initialized client; normalizes the name via `mailboxWire` and issues
`SELECT`; on OK the mailbox becomes selected and `true` is returned, on a
non-OK response `false` is returned (soft failure) and no mailbox is
selected. -/
def Bot.select_mailbox (bot : Bot) (sel : SelState) (mailbox : String) :
    Except BotError (SelState × Bool) :=
  match bot.imap_client with
  | none => .error (.uninitializedException "IMAP client")
  | some c =>
    let wire := mailboxWire mailbox
    if (c.selectResp wire).result = "OK" then .ok (some wire, true)
    else .ok (none, false)

/-- Models `Bot.get_unseen_uids` (`bot.py` lines 324-356): requires an
initialized client; issues `SEARCH UNSEEN`; a non-OK result raises
`ActionFailed((self_id, response))`; on OK the first response line is split
on whitespace into the UID list (`response.lines[0].decode().split()`) —
when `lines` is empty that subscript is a Python `IndexError`. -/
def Bot.get_unseen_uids (bot : Bot) (sel : SelState) : Except BotError (List String) :=
  match bot.imap_client with
  | none => .error (.uninitializedException "IMAP client")
  | some c =>
    let response := c.searchResp sel "UNSEEN"
    if response.result ≠ "OK" then .error (.actionFailed bot.self_id response)
    else
      match response.lines with
      | [] => .error .indexError
      | l :: _ => .ok (pySplitWs l)

/-- Models `Bot.get_mail_of_uid` (`bot.py` lines 358-404): requires an
initialized client; issues `FETCH uid (RFC822)`; a non-OK result raises
`ActionFailed`; fewer than two response lines means the mail is not found
(`None`); otherwise `lines[1]` is parsed into a `Mail`. -/
def Bot.get_mail_of_uid (parse_byte_mail : ParseByteMail) (bot : Bot) (sel : SelState)
    (mail_uid : String) : Except BotError (Option Mail) :=
  match bot.imap_client with
  | none => .error (.uninitializedException "IMAP client")
  | some c =>
    let response := c.fetchResp sel mail_uid
    if response.result ≠ "OK" then .error (.actionFailed bot.self_id response)
    else
      match response.lines with
      | _ :: l1 :: _ => .ok (some (parse_byte_mail l1))
      | _ => .ok none

/-- Models `Bot.get_mail_of_id_in_mailbox` (`bot.py` lines 406-459):
requires an initialized client; selects the mailbox (returning `None` when
that soft-fails); issues `SEARCH HEADER Message-ID id`; a non-OK result
raises `ActionFailed`; an absent or empty first line means not found
(`None`); otherwise the decoded first line is used as the UID to fetch. -/
def Bot.get_mail_of_id_in_mailbox (parse_byte_mail : ParseByteMail) (bot : Bot)
    (sel : SelState) (mail_id mailbox : String) :
    Except BotError (SelState × Option Mail) :=
  match bot.imap_client with
  | none => .error (.uninitializedException "IMAP client")
  | some c =>
    match Bot.select_mailbox bot sel mailbox with
    | .error e => .error e
    | .ok (sel1, false) => .ok (sel1, none)
    | .ok (sel1, true) =>
      let response := c.searchResp sel1 ("HEADER Message-ID " ++ mail_id)
      if response.result ≠ "OK" then .error (.actionFailed bot.self_id response)
      else
        match response.lines with
        | [] => .ok (sel1, none)
        | l0 :: _ =>
          if l0 = "" then .ok (sel1, none)
          else
            match Bot.get_mail_of_uid parse_byte_mail bot sel1 l0 with
            | .error e => .error e
            | .ok m => .ok (sel1, m)

/-- Models the list-comprehension at `bot.py` lines 495-499: keep the LIST
response lines starting with `(\Sent)`, in server order, and map each to its
final ` "/" `-separated component (the mailbox name). -/
def sent_mailbox_list (lines : List String) : List String :=
  (lines.filter (fun i => pyStartsWith i "(\\Sent)")).map
    (fun i => (pySplitSep i " \"/\" ").getLastD "")

/-- Models the `for mailbox in sent_mailbox_list` loop at `bot.py` lines
500-503: try each Sent-flagged mailbox in order, stopping at the first hit;
after an exhausted loop the `mail` variable holds the last iteration's
result (`None`). -/
def Bot.search_sent_loop (parse_byte_mail : ParseByteMail) (bot : Bot) (sel : SelState)
    (mail_id : String) : List String → Except BotError (SelState × Option Mail)
  | [] => .ok (sel, none)
  | mb :: rest =>
    match Bot.get_mail_of_id_in_mailbox parse_byte_mail bot sel mail_id mb with
    | .error e => .error e
    | .ok (sel1, some m) => .ok (sel1, some m)
    | .ok (sel1, none) => Bot.search_sent_loop parse_byte_mail bot sel1 mail_id rest

/-- Models `Bot.get_mail_of_id` (`bot.py` lines 461-506): requires an
initialized client with a live protocol; first looks in INBOX and, on a hit,
returns immediately (the early `return mail` at line 479 — no further
command is issued, the session stays on the INBOX selected in step 1); else
issues LIST (a non-OK result raises `ActionFailed`), tries every
Sent-flagged mailbox in server order, then unconditionally issues a raw
`SELECT INBOX` (line 505, result unchecked) and returns whatever the loop
left in `mail`. -/
def Bot.get_mail_of_id (parse_byte_mail : ParseByteMail) (bot : Bot) (sel : SelState)
    (mail_id : String) : Except BotError (SelState × Option Mail) :=
  match bot.imap_client with
  | none => .error (.uninitializedException "IMAP client")
  | some c =>
    match Bot.get_mail_of_id_in_mailbox parse_byte_mail bot sel mail_id "INBOX" with
    | .error e => .error e
    | .ok (sel1, some m) => .ok (sel1, some m)
    | .ok (sel1, none) =>
      if c.listResp.result ≠ "OK" then .error (.actionFailed bot.self_id c.listResp)
      else
        match Bot.search_sent_loop parse_byte_mail bot sel1 mail_id
            (sent_mailbox_list c.listResp.lines) with
        | .error e => .error e
        | .ok (_, mail) =>
          .ok ((if (c.selectResp "INBOX").result = "OK" then some "INBOX" else none), mail)

/-! ## State-carrying variants of the resolution chain

The `Except BotError` embedding above erases the connection's
selected-mailbox state when an exception propagates.  The following
variants embed exactly the same source lines but carry, in the error case,
the selected-mailbox state at the moment the exception is raised, making
the session's resting state observable also for raising calls.  Agreement
with the plain embedding is proved below (`get_mail_of_id_st_agrees`). -/

/-- Models `Bot.select_mailbox` (`bot.py` lines 289-322) with the
selected-mailbox state carried on errors. -/
def Bot.select_mailbox_st (bot : Bot) (sel : SelState) (mailbox : String) :
    Except (BotError × SelState) (SelState × Bool) :=
  match bot.imap_client with
  | none => .error (.uninitializedException "IMAP client", sel)
  | some c =>
    let wire := mailboxWire mailbox
    if (c.selectResp wire).result = "OK" then .ok (some wire, true)
    else .ok (none, false)

/-- Models `Bot.get_mail_of_uid` (`bot.py` lines 358-404) with the
selected-mailbox state carried on errors. -/
def Bot.get_mail_of_uid_st (parse_byte_mail : ParseByteMail) (bot : Bot) (sel : SelState)
    (mail_uid : String) : Except (BotError × SelState) (Option Mail) :=
  match bot.imap_client with
  | none => .error (.uninitializedException "IMAP client", sel)
  | some c =>
    let response := c.fetchResp sel mail_uid
    if response.result ≠ "OK" then .error (.actionFailed bot.self_id response, sel)
    else
      match response.lines with
      | _ :: l1 :: _ => .ok (some (parse_byte_mail l1))
      | _ => .ok none

/-- Models `Bot.get_mail_of_id_in_mailbox` (`bot.py` lines 406-459) with the
selected-mailbox state carried on errors. -/
def Bot.get_mail_of_id_in_mailbox_st (parse_byte_mail : ParseByteMail) (bot : Bot)
    (sel : SelState) (mail_id mailbox : String) :
    Except (BotError × SelState) (SelState × Option Mail) :=
  match bot.imap_client with
  | none => .error (.uninitializedException "IMAP client", sel)
  | some c =>
    match Bot.select_mailbox_st bot sel mailbox with
    | .error e => .error e
    | .ok (sel1, false) => .ok (sel1, none)
    | .ok (sel1, true) =>
      let response := c.searchResp sel1 ("HEADER Message-ID " ++ mail_id)
      if response.result ≠ "OK" then .error (.actionFailed bot.self_id response, sel1)
      else
        match response.lines with
        | [] => .ok (sel1, none)
        | l0 :: _ =>
          if l0 = "" then .ok (sel1, none)
          else
            match Bot.get_mail_of_uid_st parse_byte_mail bot sel1 l0 with
            | .error e => .error e
            | .ok m => .ok (sel1, m)

/-- Models the `for mailbox in sent_mailbox_list` loop (`bot.py` lines
500-503) with the selected-mailbox state carried on errors. -/
def Bot.search_sent_loop_st (parse_byte_mail : ParseByteMail) (bot : Bot) (sel : SelState)
    (mail_id : String) : List String → Except (BotError × SelState) (SelState × Option Mail)
  | [] => .ok (sel, none)
  | mb :: rest =>
    match Bot.get_mail_of_id_in_mailbox_st parse_byte_mail bot sel mail_id mb with
    | .error e => .error e
    | .ok (sel1, some m) => .ok (sel1, some m)
    | .ok (sel1, none) => Bot.search_sent_loop_st parse_byte_mail bot sel1 mail_id rest

/-- Models `Bot.get_mail_of_id` (`bot.py` lines 461-506) with the
selected-mailbox state carried on errors.  The function has no
try/finally: an exception raised anywhere before the `SELECT INBOX` at line
505 propagates with whatever mailbox was selected at that moment. -/
def Bot.get_mail_of_id_st (parse_byte_mail : ParseByteMail) (bot : Bot) (sel : SelState)
    (mail_id : String) : Except (BotError × SelState) (SelState × Option Mail) :=
  match bot.imap_client with
  | none => .error (.uninitializedException "IMAP client", sel)
  | some c =>
    match Bot.get_mail_of_id_in_mailbox_st parse_byte_mail bot sel mail_id "INBOX" with
    | .error e => .error e
    | .ok (sel1, some m) => .ok (sel1, some m)
    | .ok (sel1, none) =>
      if c.listResp.result ≠ "OK" then .error (.actionFailed bot.self_id c.listResp, sel1)
      else
        match Bot.search_sent_loop_st parse_byte_mail bot sel1 mail_id
            (sent_mailbox_list c.listResp.lines) with
        | .error e => .error e
        | .ok (_, mail) =>
          .ok ((if (c.selectResp "INBOX").result = "OK" then some "INBOX" else none), mail)

/-- Erases the carried selected-mailbox state from an error, recovering a
result of the plain `Except BotError` embedding. -/
def eraseSt {α : Type} : Except (BotError × SelState) α → Except BotError α
  | .error (e, _) => .error e
  | .ok x => .ok x

/-! ## SMTP sending model (`bot.py` send_mail) -/

/-- SmtpOutcome models the result of the `aiosmtplib.send` call at `bot.py`
lines 165-172: either it returns a `(errors, message)` pair whose first
component maps each refused recipient to its `(code, message)` server
response, or it raises.  The raising constructors are listed in the order of
the `isinstance` chain at lines 182-196: `SMTPRecipientsRefused` (carrying
one `(recipient, code, message)` triple per refused recipient),
`SMTPResponseException` (a response-level failure with no per-recipient
breakdown), any other `SMTPException` (connection-level failure), and any
other Python exception (tagged, to be re-raised unchanged).  Python dicts
are modelled as association lists. -/
inductive SmtpOutcome where
  | success (errors : List (String × Int × String))
  | recipientsRefused (recipients : List (String × Int × String))
  | responseException (code : Int) (message : String)
  | smtpException
  | otherException (tag : Nat)
deriving DecidableEq

/-- OutboundPayload is the `Union[Message, email.message.EmailMessage]`
accepted by `Bot.send_mail`: a segment `Message` to be composed, or an
already-composed MIME document (the raw escape hatch). -/
inductive OutboundPayload where
  | message (m : Message)
  | raw
deriving DecidableEq

/-- Models the try/except around `aiosmtplib.send` and the final
`response[0]` check (`bot.py` lines 164-215): `SMTPRecipientsRefused` maps
to `ActionFailed` keyed per refused recipient; `SMTPResponseException` maps
to `ActionFailed` with the single entry keyed by the sending account's
address (`bot_info.id`); any other `SMTPException` maps to `NetworkError`;
any other exception propagates unchanged; a returned response with a
nonempty error dict raises `ActionFailed` on that dict, and an empty error
dict is a fully successful send returning `None`. -/
def smtp_submit (bot : Bot) (smtp : SmtpOutcome) : Except BotError Unit :=
  match smtp with
  | .recipientsRefused rs => .error (.actionFailedSmtp rs)
  | .responseException code msg => .error (.actionFailedSmtp [(bot.bot_info.id, code, msg)])
  | .smtpException => .error .networkError
  | .otherException t => .error (.otherException t)
  | .success errors => if errors ≠ [] then .error (.actionFailedSmtp errors) else .ok ()

/-- Models `Bot.send_mail` (`bot.py` lines 133-215): when the payload is a
segment `Message`, absent or empty `recipients` raise
`ValueError("recipients is required when sending a Message")`; the MIME
document construction at lines 148-161 only shapes the outbound document and
is elided; the submission outcome is handled by `smtp_submit`. -/
def Bot.send_mail (bot : Bot) (payload : OutboundPayload)
    (recipients : Option (List String)) (smtp : SmtpOutcome) : Except BotError Unit :=
  match payload, recipients with
  | .message _, none => .error (.valueError "recipients is required when sending a Message")
  | .message _, some [] => .error (.valueError "recipients is required when sending a Message")
  | _, _ => smtp_submit bot smtp

/-! ## Event model and the correlation checks (`bot.py` top level) -/

/-- NewMailMessageEvent carries the fields the correlation checks read and
write: the parsed `sender`, the `recipients_to` list, the optional
`in_reply_to` Message-ID, and the two mutable fields `to_me` (default
`false`) and `reply` (default absent). -/
structure NewMailMessageEvent where
  sender : User
  recipients_to : List User
  in_reply_to : Option String
  to_me : Bool
  reply : Option Mail
deriving DecidableEq

/-- Event models the adapter's event hierarchy as seen by `handle_event`:
a `NewMailMessageEvent`, some other `MessageEvent`, or an `Event` that is
not a `MessageEvent` (the two `isinstance` guards in `bot.py`). -/
inductive Event where
  | newMail (e : NewMailMessageEvent)
  | otherMessage (sender : User)
  | nonMessage
deriving DecidableEq

/-- Models `_check_to_me` (`bot.py` lines 26-33): on a
`NewMailMessageEvent` whose `recipients_to` ids contain the account's own
address (`bot_info.id`, exact match), set `to_me` to `True`; otherwise the
event is left unchanged.  The check reads only the event and the bot
configuration — it is a pure function, no network I/O. -/
def check_to_me (bot : Bot) : Event → Event
  | .newMail e =>
    if bot.bot_info.id ∈ e.recipients_to.map User.id then .newMail { e with to_me := true }
    else .newMail e
  | ev => ev

/-- Models `_check_reply` (`bot.py` lines 36-56): on a
`NewMailMessageEvent` with a present `in_reply_to`, resolve it via
`get_mail_of_id`; on a returned mail store it in `reply` and, when that
mail's sender is the account itself, also set `to_me`; any exception raised
by the resolution is caught by the `except Exception` at line 48 (logged as
a warning) and the event is left unchanged. -/
def check_reply (parse_byte_mail : ParseByteMail) (bot : Bot) (sel : SelState) :
    Event → Event
  | .newMail e =>
    match e.in_reply_to with
    | none => .newMail e
    | some rid =>
      match Bot.get_mail_of_id parse_byte_mail bot sel rid with
      | .error _ => .newMail e
      | .ok (_, r) =>
        let e1 := { e with reply := r }
        match r with
        | some m =>
          if m.sender.id = bot.bot_info.id then .newMail { e1 with to_me := true }
          else .newMail e1
        | none => .newMail e1
  | ev => ev

/-- Models `Bot.handle_event` (`bot.py` lines 508-512): a `MessageEvent`
first passes through `_check_to_me` then `_check_reply`; every event —
whatever happened in the checks — is then handed to nonebot's dispatch via
`handle_event(self, event)`.  The returned value is the event handed
onward; the function is total, so delivery is unconditional. -/
def Bot.handle_event (parse_byte_mail : ParseByteMail) (bot : Bot) (sel : SelState)
    (event : Event) : Event :=
  match event with
  | .nonMessage => event
  | ev => check_reply parse_byte_mail bot sel (check_to_me bot ev)

/-! ## Spec-side reference definitions

These definitions are written from the spec's words (not from the source)
and are compared with the source-embedded definitions in the refinement
theorems below. -/

/-- Written from the spec's words (sections 4.1 and 6): "normalizes a
caller-supplied mailbox name by stripping a single pair of enclosing quote
characters if both present, then re-quoting only if the name contains a
space". -/
def mailboxWireSpec (name : String) : String :=
  let unwrapped :=
    if pyStartsWith name "\"" && pyEndsWith name "\"" then pyInnerSlice name
    else name
  if pyContainsChar unwrapped ' ' then "\"" ++ unwrapped ++ "\"" else unwrapped

/-- Written from the spec's words (glossary: a Sent-flagged mailbox is "any
mailbox the server marks with the special-use attribute indicating it stores
outgoing mail"): the attribute list of a LIST response line is the
whitespace-separated content of its leading parenthesized group. -/
def listLineAttrs (line : String) : List String :=
  pySplitWs (String.mk (((line.data.dropWhile (fun c => c ≠ '(')).drop 1).takeWhile
    (fun c => c ≠ ')')))

/-- Written from the spec's words: a LIST response line flags the mailbox
Sent when the attribute `\Sent` appears among its attributes — wherever it
appears in the list, possibly alongside other attributes. -/
def lineFlagsSent (line : String) : Bool :=
  (listLineAttrs line).contains "\\Sent"

/-- Written from the spec's words (section 4.4 step 2): "enumerate all
mailboxes server-flagged Sent (order as returned by the server — not sorted,
not deduplicated beyond what the server reports)".  The mailbox name is read
from the final ` "/" `-separated field of the line; the spec does not
describe the LIST wire syntax, so that low-level reading is shared with the
session layer — the property under test is the flag filter. -/
def sent_mailbox_list_spec (lines : List String) : List String :=
  (lines.filter lineFlagsSent).map (fun i => (pySplitSep i " \"/\" ").getLastD "")

/-- Written from the spec's words (sections 4.1 and 4.4): for one mailbox,
select it (a soft select failure yields no hit), issue a header search for
the exact Message-ID (non-OK fails with `ActionFailed`; an absent or empty
data line means no match), fetch the raw mail for the matching UID (non-OK
fails with `ActionFailed`; a missing body line means not found) and parse
it.  The matching UID is read from the first data line of the SEARCH
response; the spec does not pin the wire format. -/
def lookup_by_id_spec (parse_byte_mail : ParseByteMail) (bot : Bot) (c : ImapClient)
    (mail_id mailbox : String) : Except BotError (Option Mail) :=
  let wire := mailboxWireSpec mailbox
  if (c.selectResp wire).result ≠ "OK" then .ok none
  else
    let response := c.searchResp (some wire) ("HEADER Message-ID " ++ mail_id)
    if response.result ≠ "OK" then .error (.actionFailed bot.self_id response)
    else
      match response.lines with
      | [] => .ok none
      | l0 :: _ =>
        if l0 = "" then .ok none
        else
          let fetched := c.fetchResp (some wire) l0
          if fetched.result ≠ "OK" then .error (.actionFailed bot.self_id fetched)
          else
            match fetched.lines with
            | _ :: l1 :: _ => .ok (some (parse_byte_mail l1))
            | _ => .ok none

/-- Written from the spec's words (section 4.4 step 2 recursion): try each
candidate mailbox in order with `lookup_by_id_spec` and return the first
hit; none when the candidates are exhausted. -/
def first_hit_spec (parse_byte_mail : ParseByteMail) (bot : Bot) (c : ImapClient)
    (mail_id : String) : List String → Except BotError (Option Mail)
  | [] => .ok none
  | mb :: rest =>
    match lookup_by_id_spec parse_byte_mail bot c mail_id mb with
    | .error e => .error e
    | .ok (some m) => .ok (some m)
    | .ok none => first_hit_spec parse_byte_mail bot c mail_id rest

/-- Written from the spec's words (section 4.4 steps 1-3): select INBOX and
search by Message-ID, returning that mail on a hit; otherwise enumerate all
mailboxes the server flags Sent (`sent_mailbox_list_spec`), in server order,
and return the first hit; none when no mailbox yields a hit.  Failure to
list mailboxes surfaces as the protocol-level `ActionFailed`. -/
def resolve_spec (parse_byte_mail : ParseByteMail) (bot : Bot) (mail_id : String) :
    Except BotError (Option Mail) :=
  match bot.imap_client with
  | none => .error (.uninitializedException "IMAP client")
  | some c =>
    match lookup_by_id_spec parse_byte_mail bot c mail_id "INBOX" with
    | .error e => .error e
    | .ok (some m) => .ok (some m)
    | .ok none =>
      if c.listResp.result ≠ "OK" then .error (.actionFailed bot.self_id c.listResp)
      else first_hit_spec parse_byte_mail bot c mail_id
        (sent_mailbox_list_spec c.listResp.lines)

/-- The resolution algorithm as amended: identical to `resolve_spec` except
that the Sent-mailbox enumeration is the code's exact-prefix one
(`sent_mailbox_list`: only LIST lines whose attribute list is literally
`(\Sent)`), while the per-mailbox lookup is still the spec-worded
`lookup_by_id_spec`. -/
def resolve_amended (parse_byte_mail : ParseByteMail) (bot : Bot) (mail_id : String) :
    Except BotError (Option Mail) :=
  match bot.imap_client with
  | none => .error (.uninitializedException "IMAP client")
  | some c =>
    match lookup_by_id_spec parse_byte_mail bot c mail_id "INBOX" with
    | .error e => .error e
    | .ok (some m) => .ok (some m)
    | .ok none =>
      if c.listResp.result ≠ "OK" then .error (.actionFailed bot.self_id c.listResp)
      else first_hit_spec parse_byte_mail bot c mail_id
        (sent_mailbox_list c.listResp.lines)

/-! ## Concrete fixtures

Concrete parser, clients, bots and events used to instantiate the claim
theorems at explicit inputs. -/

/-- Concrete total parser: records the raw line in the mail id and reports a
fixed sender. -/
def parse0 : ParseByteMail :=
  fun raw => { id := raw, sender := { id := "alice@example.com", name := none },
               in_reply_to := none }

/-- Concrete account configuration. -/
def info0 : BotInfo :=
  { id := "bot@example.com", subject := "default subject" }

/-- Concrete client whose server answers OK everywhere, reports one search
hit (UID 7) and returns a three-line FETCH response. -/
def cFound : ImapClient :=
  { loginResp := ⟨"OK", ["LOGIN completed"]⟩
    idResp := ⟨"OK", ["ID completed"]⟩
    logoutResp := ⟨"OK", ["LOGOUT completed"]⟩
    selectResp := fun _ => ⟨"OK", ["1 EXISTS"]⟩
    searchResp := fun _ _ => ⟨"OK", ["7", "SEARCH completed"]⟩
    fetchResp := fun _ _ => ⟨"OK", ["7 FETCH (RFC822", "rawmail", ")"]⟩
    listResp := ⟨"OK", []⟩ }

/-- Concrete client whose server answers OK everywhere and reports an empty
search result (the untagged `* SEARCH` data line is empty). -/
def cEmptySearch : ImapClient :=
  { loginResp := ⟨"OK", ["LOGIN completed"]⟩
    idResp := ⟨"OK", ["ID completed"]⟩
    logoutResp := ⟨"OK", ["LOGOUT completed"]⟩
    selectResp := fun _ => ⟨"OK", ["0 EXISTS"]⟩
    searchResp := fun _ _ => ⟨"OK", ["", "SEARCH completed"]⟩
    fetchResp := fun _ _ => ⟨"OK", ["FETCH completed"]⟩
    listResp := ⟨"OK", []⟩ }

/-- Concrete client whose server refuses every SELECT. -/
def cNoSelect : ImapClient :=
  { loginResp := ⟨"OK", ["LOGIN completed"]⟩
    idResp := ⟨"OK", ["ID completed"]⟩
    logoutResp := ⟨"OK", ["LOGOUT completed"]⟩
    selectResp := fun _ => ⟨"NO", ["SELECT failed"]⟩
    searchResp := fun _ _ => ⟨"OK", ["", "SEARCH completed"]⟩
    fetchResp := fun _ _ => ⟨"OK", ["FETCH completed"]⟩
    listResp := ⟨"OK", []⟩ }

/-- Concrete client whose LIST response flags one mailbox (`Archive`) with
the attribute `\Sent` alongside another attribute; searching INBOX misses,
searching `Archive` hits UID 9. -/
def cMultiFlag : ImapClient :=
  { loginResp := ⟨"OK", ["LOGIN completed"]⟩
    idResp := ⟨"OK", ["ID completed"]⟩
    logoutResp := ⟨"OK", ["LOGOUT completed"]⟩
    selectResp := fun _ => ⟨"OK", ["1 EXISTS"]⟩
    searchResp := fun sel _ =>
      if sel = some "Archive" then ⟨"OK", ["9", "SEARCH completed"]⟩
      else ⟨"OK", ["", "SEARCH completed"]⟩
    fetchResp := fun _ _ => ⟨"OK", ["9 FETCH (RFC822", "archive-raw", ")"]⟩
    listResp := ⟨"OK", ["(\\HasNoChildren \\Sent) \"/\" Archive"]⟩ }

/-- Concrete client whose LIST response reports one exactly-`(\Sent)`
mailbox (`Sent`); searching INBOX misses, and searching the `Sent` mailbox
fails with a non-OK server result. -/
def cSentFail : ImapClient :=
  { loginResp := ⟨"OK", ["LOGIN completed"]⟩
    idResp := ⟨"OK", ["ID completed"]⟩
    logoutResp := ⟨"OK", ["LOGOUT completed"]⟩
    selectResp := fun _ => ⟨"OK", ["1 EXISTS"]⟩
    searchResp := fun sel _ =>
      if sel = some "Sent" then ⟨"NO", ["SEARCH failed"]⟩
      else ⟨"OK", ["", "SEARCH completed"]⟩
    fetchResp := fun _ _ => ⟨"OK", ["FETCH completed"]⟩
    listResp := ⟨"OK", ["(\\Sent) \"/\" Sent"]⟩ }

/-- Concrete bot over `cFound`. -/
def bot0 : Bot :=
  { self_id := "bot@example.com", bot_info := info0, imap_client := some cFound }

/-- Concrete bot over `cEmptySearch`. -/
def botEmpty : Bot :=
  { self_id := "bot@example.com", bot_info := info0, imap_client := some cEmptySearch }

/-- Concrete bot over `cNoSelect`. -/
def botNoSelect : Bot :=
  { self_id := "bot@example.com", bot_info := info0, imap_client := some cNoSelect }

/-- Concrete bot over `cMultiFlag`. -/
def botMultiFlag : Bot :=
  { self_id := "bot@example.com", bot_info := info0, imap_client := some cMultiFlag }

/-- Concrete bot over `cSentFail`. -/
def botSentFail : Bot :=
  { self_id := "bot@example.com", bot_info := info0, imap_client := some cSentFail }

/-- Concrete bot with an uninitialized IMAP client. -/
def botNone : Bot :=
  { self_id := "bot@example.com", bot_info := info0, imap_client := none }

/-- Concrete external correspondent. -/
def userA : User :=
  { id := "alice@example.com", name := some "Alice" }

/-- Concrete inbound event addressed to the account itself (among the
recipients) with no reply reference. -/
def e8 : NewMailMessageEvent :=
  { sender := userA, recipients_to := [userA, { id := "bot@example.com", name := none }],
    in_reply_to := none, to_me := false, reply := none }

/-- Concrete inbound event referencing a prior Message-ID, reply not yet
resolved. -/
def e5 : NewMailMessageEvent :=
  { sender := userA, recipients_to := [userA], in_reply_to := some "prior-id",
    to_me := false, reply := none }

/-! ## Claim C1 -/

/-- Claim C1 counterexample: the claim states that `a + ""` has exactly
`a`'s segment sequence, with no text segment appended.  At the concrete
input `a = []` (the empty Message), `[] + ""` is `[Text ""]`, not `[]`:
`Message.__add__` converts the bare string through `MessageSegment.text`
before handing it to the base class, which appends it as a segment, so the
empty string never reaches `_construct`. -/
theorem claim_C1_counterexample :
    Message.add ([] : Message) (.str "") ≠ ([] : Message) := by
  decide

/-- Claim C1 amended: concatenating a Message with a bare string always
appends one text segment built from that string, even when the string is
empty — `a + ""` is `a`'s segments followed by `Text ""`, hence never `a`
unchanged; constructing a Message from the bare string `""` does yield the
empty segment sequence. -/
theorem claim_C1_amended (a : Message) :
    Message.add a (.str "") = a ++ [MessageSegment.text ""] ∧
    Message.add a (.str "") ≠ a ∧
    Message.construct "" = ([] : Message) := by
  refine ⟨rfl, ?_, rfl⟩
  intro h
  have := congrArg List.length h
  simp [Message.add] at this

/-! ## Claim C4 -/

/-- Claim C4: `select_mailbox` strips one enclosing pair of quote characters
when the name both starts and ends with a quote, then re-quotes exactly when
the stripped name contains a space (the source-embedded normalization equals
the one written from the spec's words, on every input); consequently
`select_mailbox('"My Folder"')` and `select_mailbox("My Folder")` put the
identical mailbox argument on the wire and behave identically. -/
theorem claim_C4 :
    (∀ name : String, mailboxWire name = mailboxWireSpec name) ∧
    mailboxWire "\"My Folder\"" = mailboxWire "My Folder" ∧
    mailboxWire "My Folder" = "\"My Folder\"" ∧
    (∀ (bot : Bot) (sel : SelState),
      Bot.select_mailbox bot sel "\"My Folder\"" = Bot.select_mailbox bot sel "My Folder") := by
  refine ⟨fun _ => rfl, by decide, by decide, fun bot sel => ?_⟩
  have h : mailboxWire "\"My Folder\"" = mailboxWire "My Folder" := by decide
  simp only [Bot.select_mailbox, h]

/-! ## Claim C2 -/

/-- Helper: the result of `get_mail_of_id_in_mailbox` does not depend on the
incoming selected-mailbox state, because the operation always starts by
issuing its own SELECT. -/
theorem get_mail_of_id_in_mailbox_sel_indep (parse_byte_mail : ParseByteMail) (bot : Bot)
    (sel sel' : SelState) (mail_id mailbox : String) :
    Bot.get_mail_of_id_in_mailbox parse_byte_mail bot sel mail_id mailbox =
      Bot.get_mail_of_id_in_mailbox parse_byte_mail bot sel' mail_id mailbox := rfl

/-- Helper: the mailbox-name normalization embedded from the source equals
the one written from the spec's words. -/
theorem mailboxWire_eq_spec (name : String) : mailboxWireSpec name = mailboxWire name := rfl

/-- Helper: the source's per-mailbox lookup, projected onto its mail result,
equals the spec-worded per-mailbox lookup (select, header-search, fetch,
parse), for every server behaviour and starting state. -/
theorem get_mail_of_id_in_mailbox_is_spec (parse_byte_mail : ParseByteMail) (bot : Bot)
    (c : ImapClient) (sel : SelState) (mail_id mailbox : String)
    (hc : bot.imap_client = some c) :
    (Bot.get_mail_of_id_in_mailbox parse_byte_mail bot sel mail_id mailbox).map Prod.snd =
      lookup_by_id_spec parse_byte_mail bot c mail_id mailbox := by
  simp only [Bot.get_mail_of_id_in_mailbox, hc, Bot.select_mailbox, lookup_by_id_spec,
    Bot.get_mail_of_uid, mailboxWire_eq_spec]
  repeat' split
  all_goals simp_all [Except.map]

/-- Helper: the `for mailbox in sent_mailbox_list` loop, projected onto its
mail result, is the spec's first-hit recursion over the same candidate
list, from any starting selected state. -/
theorem search_sent_loop_is_spec (parse_byte_mail : ParseByteMail) (bot : Bot)
    (c : ImapClient) (mail_id : String) (hc : bot.imap_client = some c) :
    ∀ (mbs : List String) (sel : SelState),
      (Bot.search_sent_loop parse_byte_mail bot sel mail_id mbs).map Prod.snd =
        first_hit_spec parse_byte_mail bot c mail_id mbs := by
  intro mbs
  induction mbs with
  | nil => intro sel; rfl
  | cons mb rest ih =>
    intro sel
    simp only [Bot.search_sent_loop, first_hit_spec]
    rw [← get_mail_of_id_in_mailbox_is_spec parse_byte_mail bot c sel mail_id mb hc]
    cases h : Bot.get_mail_of_id_in_mailbox parse_byte_mail bot sel mail_id mb with
    | error e => rfl
    | ok p =>
      obtain ⟨s1, m⟩ := p
      cases m with
      | some mm => rfl
      | none => exact ih s1

/-- Claim C2 counterexample: the claim says resolution enumerates every
mailbox the server flags "Sent".  On the concrete server whose LIST
response is the single line `(\HasNoChildren \Sent) "/" Archive` — a
mailbox carrying the server's `\Sent` flag alongside another attribute —
the mail is in `Archive`, the spec-worded resolution finds it there, yet
`get_mail_of_id` returns none: the code's filter keeps only lines whose
attribute list is literally `(\Sent)` (an exact prefix match), so `Archive`
is never enumerated, selected or searched. -/
theorem claim_C2_counterexample :
    (Bot.get_mail_of_id parse0 botMultiFlag none "mid").map Prod.snd = .ok none ∧
    resolve_spec parse0 botMultiFlag "mid" = .ok (some (parse0 "archive-raw")) ∧
    lineFlagsSent "(\\HasNoChildren \\Sent) \"/\" Archive" = true ∧
    sent_mailbox_list ["(\\HasNoChildren \\Sent) \"/\" Archive"] = [] ∧
    (Bot.get_mail_of_id parse0 botMultiFlag none "mid").map Prod.snd ≠
      resolve_spec parse0 botMultiFlag "mid" := by
  refine ⟨rfl, rfl, rfl, rfl, ?_⟩
  intro h
  rw [show (Bot.get_mail_of_id parse0 botMultiFlag none "mid").map Prod.snd =
      (.ok none : Except BotError (Option Mail)) from rfl] at h
  rw [show resolve_spec parse0 botMultiFlag "mid" =
      (.ok (some (parse0 "archive-raw")) : Except BotError (Option Mail)) from rfl] at h
  exact Option.noConfusion (Except.ok.inj h)

/-- Claim C2 amended: for every Message-ID (and every server behaviour and
starting state), the mail returned by `get_mail_of_id` is exactly the
spec's resolution algorithm with one change to the enumeration: INBOX
first, then — instead of every mailbox the server flags Sent — exactly
those mailboxes whose LIST line's attribute list is literally `(\Sent)`,
in server order; first hit wins, none when no enumerated mailbox yields a
hit, protocol failures raising `ActionFailed`.  The per-mailbox lookup is
the spec-worded select/search/fetch. -/
theorem claim_C2_amended (parse_byte_mail : ParseByteMail) (bot : Bot) (sel : SelState)
    (mail_id : String) :
    (Bot.get_mail_of_id parse_byte_mail bot sel mail_id).map Prod.snd =
      resolve_amended parse_byte_mail bot mail_id := by
  rw [show Bot.get_mail_of_id parse_byte_mail bot sel mail_id =
      Bot.get_mail_of_id parse_byte_mail bot none mail_id from rfl]
  cases hc : bot.imap_client with
  | none =>
    simp only [Bot.get_mail_of_id, resolve_amended, hc]
    rfl
  | some c =>
    simp only [Bot.get_mail_of_id, resolve_amended, hc]
    rw [← get_mail_of_id_in_mailbox_is_spec parse_byte_mail bot c none mail_id "INBOX" hc]
    cases h1 : Bot.get_mail_of_id_in_mailbox parse_byte_mail bot none mail_id "INBOX" with
    | error e => rfl
    | ok p =>
      obtain ⟨s1, m⟩ := p
      cases m with
      | some mm => rfl
      | none =>
        dsimp only
        split
        · rfl
        · rw [← search_sent_loop_is_spec parse_byte_mail bot c mail_id hc
            (sent_mailbox_list c.listResp.lines) s1]
          cases h2 : Bot.search_sent_loop parse_byte_mail bot s1 mail_id
              (sent_mailbox_list c.listResp.lines) with
          | error e => rfl
          | ok q =>
            obtain ⟨s2, mail⟩ := q
            rfl
/-! ## Claim C6 -/

/-- Helper: erasing the carried state from `select_mailbox_st` recovers
`select_mailbox`. -/
theorem eraseSt_select_mailbox (bot : Bot) (sel : SelState) (mailbox : String) :
    eraseSt (Bot.select_mailbox_st bot sel mailbox) = Bot.select_mailbox bot sel mailbox := by
  cases hc : bot.imap_client with
  | none =>
    simp only [Bot.select_mailbox_st, Bot.select_mailbox, hc]
    rfl
  | some c =>
    simp only [Bot.select_mailbox_st, Bot.select_mailbox, hc]
    split <;> rfl

/-- Helper: erasing the carried state from `get_mail_of_uid_st` recovers
`get_mail_of_uid`. -/
theorem eraseSt_get_mail_of_uid (parse_byte_mail : ParseByteMail) (bot : Bot)
    (sel : SelState) (mail_uid : String) :
    eraseSt (Bot.get_mail_of_uid_st parse_byte_mail bot sel mail_uid) =
      Bot.get_mail_of_uid parse_byte_mail bot sel mail_uid := by
  cases hc : bot.imap_client with
  | none =>
    simp only [Bot.get_mail_of_uid_st, Bot.get_mail_of_uid, hc]
    rfl
  | some c =>
    simp only [Bot.get_mail_of_uid_st, Bot.get_mail_of_uid, hc]
    by_cases hres : (c.fetchResp sel mail_uid).result = "OK"
    · rw [if_neg (not_not_intro hres), if_neg (not_not_intro hres)]
      cases (c.fetchResp sel mail_uid).lines with
      | nil => rfl
      | cons a t =>
        cases t with
        | nil => rfl
        | cons b t2 => rfl
    · rw [if_pos hres, if_pos hres]
      rfl

/-- Helper: erasing the carried state from `get_mail_of_id_in_mailbox_st`
recovers `get_mail_of_id_in_mailbox`. -/
theorem eraseSt_get_mail_of_id_in_mailbox (parse_byte_mail : ParseByteMail) (bot : Bot)
    (sel : SelState) (mail_id mailbox : String) :
    eraseSt (Bot.get_mail_of_id_in_mailbox_st parse_byte_mail bot sel mail_id mailbox) =
      Bot.get_mail_of_id_in_mailbox parse_byte_mail bot sel mail_id mailbox := by
  cases hc : bot.imap_client with
  | none =>
    simp only [Bot.get_mail_of_id_in_mailbox_st, Bot.get_mail_of_id_in_mailbox, hc]
    rfl
  | some c =>
    simp only [Bot.get_mail_of_id_in_mailbox_st, Bot.get_mail_of_id_in_mailbox, hc]
    rw [← eraseSt_select_mailbox bot sel mailbox]
    cases hs : Bot.select_mailbox_st bot sel mailbox with
    | error p =>
      obtain ⟨e, s⟩ := p
      rfl
    | ok p =>
      obtain ⟨sel1, flag⟩ := p
      cases flag with
      | false => rfl
      | true =>
        dsimp only [eraseSt]
        by_cases hres : (c.searchResp sel1 ("HEADER Message-ID " ++ mail_id)).result = "OK"
        · rw [if_neg (not_not_intro hres), if_neg (not_not_intro hres)]
          cases (c.searchResp sel1 ("HEADER Message-ID " ++ mail_id)).lines with
          | nil => rfl
          | cons l0 rest =>
            dsimp only
            by_cases h0 : l0 = ""
            · rw [if_pos h0, if_pos h0]
            · rw [if_neg h0, if_neg h0]
              rw [← eraseSt_get_mail_of_uid parse_byte_mail bot sel1 l0]
              cases hu : Bot.get_mail_of_uid_st parse_byte_mail bot sel1 l0 with
              | error p =>
                obtain ⟨e, s⟩ := p
                rfl
              | ok m => rfl
        · rw [if_pos hres, if_pos hres]

/-- Helper: erasing the carried state from `search_sent_loop_st` recovers
`search_sent_loop`. -/
theorem eraseSt_search_sent_loop (parse_byte_mail : ParseByteMail) (bot : Bot)
    (mail_id : String) :
    ∀ (mbs : List String) (sel : SelState),
      eraseSt (Bot.search_sent_loop_st parse_byte_mail bot sel mail_id mbs) =
        Bot.search_sent_loop parse_byte_mail bot sel mail_id mbs := by
  intro mbs
  induction mbs with
  | nil => intro sel; rfl
  | cons mb rest ih =>
    intro sel
    simp only [Bot.search_sent_loop_st, Bot.search_sent_loop]
    rw [← eraseSt_get_mail_of_id_in_mailbox parse_byte_mail bot sel mail_id mb]
    cases h : Bot.get_mail_of_id_in_mailbox_st parse_byte_mail bot sel mail_id mb with
    | error p =>
      obtain ⟨e, s⟩ := p
      rfl
    | ok p =>
      obtain ⟨s1, m⟩ := p
      cases m with
      | some mm => rfl
      | none => exact ih s1

/-- Helper: the state-carrying embedding agrees with the plain one — erasing
the selected-mailbox state carried on errors from `get_mail_of_id_st`
recovers `get_mail_of_id` exactly, for every server behaviour, parser and
starting state. -/
theorem get_mail_of_id_st_agrees (parse_byte_mail : ParseByteMail) (bot : Bot)
    (sel : SelState) (mail_id : String) :
    eraseSt (Bot.get_mail_of_id_st parse_byte_mail bot sel mail_id) =
      Bot.get_mail_of_id parse_byte_mail bot sel mail_id := by
  cases hc : bot.imap_client with
  | none =>
    simp only [Bot.get_mail_of_id_st, Bot.get_mail_of_id, hc]
    rfl
  | some c =>
    simp only [Bot.get_mail_of_id_st, Bot.get_mail_of_id, hc]
    rw [← eraseSt_get_mail_of_id_in_mailbox parse_byte_mail bot sel mail_id "INBOX"]
    cases h1 : Bot.get_mail_of_id_in_mailbox_st parse_byte_mail bot sel mail_id "INBOX" with
    | error p =>
      obtain ⟨e, s⟩ := p
      rfl
    | ok p =>
      obtain ⟨s1, m⟩ := p
      cases m with
      | some mm => rfl
      | none =>
        dsimp only [eraseSt]
        by_cases hl : c.listResp.result = "OK"
        · rw [if_neg (not_not_intro hl), if_neg (not_not_intro hl)]
          rw [← eraseSt_search_sent_loop parse_byte_mail bot mail_id
            (sent_mailbox_list c.listResp.lines) s1]
          cases h2 : Bot.search_sent_loop_st parse_byte_mail bot s1 mail_id
              (sent_mailbox_list c.listResp.lines) with
          | error p =>
            obtain ⟨e, s⟩ := p
            rfl
          | ok q =>
            obtain ⟨s2, mail⟩ := q
            rfl
        · rw [if_pos hl, if_pos hl]

/-- Claim C6 counterexample: the claim says every call, whatever its
outcome, ends with INBOX reselected.  On the concrete server where the
INBOX search misses, LIST reports the Sent-flagged mailbox `Sent`, and the
search inside `Sent` returns non-OK, the call raises `ActionFailed` from
inside the Sent scan; there is no try/finally, so the exception propagates
before the `SELECT INBOX` at line 505 and the session is left with the
`Sent` mailbox — not INBOX — selected. -/
theorem claim_C6_counterexample :
    Bot.get_mail_of_id_st parse0 botSentFail none "mid" =
      .error (.actionFailed "bot@example.com" ⟨"NO", ["SEARCH failed"]⟩, some "Sent") ∧
    (some "Sent" : SelState) ≠ some "INBOX" :=
  ⟨rfl, by decide⟩

/-- Helper: when `get_mail_of_id_in_mailbox` returns a mail, the session is
left selected on the wire form of the requested mailbox (the SELECT issued
in its first step must have succeeded for a hit to be possible). -/
theorem get_mail_of_id_in_mailbox_hit_state (parse_byte_mail : ParseByteMail) (bot : Bot)
    (sel : SelState) (mail_id mailbox : String) (s : SelState) (m : Mail)
    (h : Bot.get_mail_of_id_in_mailbox parse_byte_mail bot sel mail_id mailbox =
      .ok (s, some m)) :
    s = some (mailboxWire mailbox) := by
  cases hc : bot.imap_client with
  | none =>
    simp only [Bot.get_mail_of_id_in_mailbox, hc] at h
    exact Except.noConfusion h
  | some c =>
    simp only [Bot.get_mail_of_id_in_mailbox, hc, Bot.select_mailbox] at h
    by_cases hsel : (c.selectResp (mailboxWire mailbox)).result = "OK"
    · rw [if_pos hsel] at h
      repeat' split at h
      all_goals simp_all
    · rw [if_neg hsel] at h
      simp at h

/-- Claim C6 amended: whenever `get_mail_of_id` completes without raising,
the session's resting state is INBOX — also on the early return when step 1
already found the mail in INBOX (there the INBOX selected by step 1 itself
is the resting state; no further SELECT is issued) — provided the server
accepts `SELECT INBOX`; and a repeated call from any selected-mailbox state
returns the identical result, so calls are idempotent with respect to the
selected-mailbox state.  (A raising call propagates before the final
reselect: see the counterexample.) -/
theorem claim_C6 (parse_byte_mail : ParseByteMail) (bot : Bot) (c : ImapClient)
    (sel sel' : SelState) (mail_id : String) (s : SelState) (m : Option Mail)
    (hc : bot.imap_client = some c)
    (hinbox : (c.selectResp "INBOX").result = "OK")
    (h : Bot.get_mail_of_id parse_byte_mail bot sel mail_id = .ok (s, m)) :
    s = some "INBOX" ∧
    Bot.get_mail_of_id parse_byte_mail bot sel' mail_id = .ok (s, m) := by
  constructor
  · simp only [Bot.get_mail_of_id, hc] at h
    cases h1 : Bot.get_mail_of_id_in_mailbox parse_byte_mail bot sel mail_id "INBOX" with
    | error e =>
      rw [h1] at h
      exact Except.noConfusion h
    | ok p =>
      obtain ⟨s1, m1⟩ := p
      rw [h1] at h
      cases m1 with
      | some mm =>
        dsimp only at h
        have hs := get_mail_of_id_in_mailbox_hit_state parse_byte_mail bot sel mail_id
          "INBOX" s1 mm h1
        have hw : mailboxWire "INBOX" = "INBOX" := by decide
        rw [hw] at hs
        simp only [Except.ok.injEq, Prod.mk.injEq] at h
        rw [← h.1, hs]
      | none =>
        dsimp only at h
        split at h
        · exact Except.noConfusion h
        · cases h2 : Bot.search_sent_loop parse_byte_mail bot s1 mail_id
              (sent_mailbox_list c.listResp.lines) with
          | error e =>
            rw [h2] at h
            exact Except.noConfusion h
          | ok q =>
            obtain ⟨s2, mail2⟩ := q
            rw [h2] at h
            simp only [hinbox, if_pos] at h
            simp only [Except.ok.injEq, Prod.mk.injEq] at h
            exact h.1.symm
  · rw [show Bot.get_mail_of_id parse_byte_mail bot sel' mail_id =
        Bot.get_mail_of_id parse_byte_mail bot sel mail_id from rfl]
    exact h

/-- Claim C6 witness: on the concrete all-OK server the mail is found in
INBOX by step 1 and the call leaves INBOX selected; the identical result is
returned when the same call starts from a different selected mailbox. -/
theorem claim_C6_witness :
    (some "INBOX" : SelState) = some "INBOX" ∧
    Bot.get_mail_of_id parse0 bot0 (some "\"Sent Items\"") "mid" =
      .ok (some "INBOX", some (parse0 "rawmail")) :=
  claim_C6 parse0 bot0 cFound none (some "\"Sent Items\"") "mid" (some "INBOX")
    (some (parse0 "rawmail")) rfl rfl rfl

/-! ## Claim C7 -/

/-- Claim C7: for every server reply to the UNSEEN search whose result code
is OK (and whose line list is nonempty, as `aioimaplib` guarantees by always
including the command-completion line), `get_unseen_uids` returns the
ordered sequence of UID strings on the data line — in particular the empty
sequence, not an error, when the data line is empty — and a non-OK result
raises `ActionFailed` carrying the response. -/
theorem claim_C7 :
    (∀ (bot : Bot) (c : ImapClient) (sel : SelState) (l : String) (rest : List String),
      bot.imap_client = some c →
      (c.searchResp sel "UNSEEN").result = "OK" →
      (c.searchResp sel "UNSEEN").lines = l :: rest →
      Bot.get_unseen_uids bot sel = .ok (pySplitWs l)) ∧
    pySplitWs "" = [] ∧
    (∀ (bot : Bot) (c : ImapClient) (sel : SelState),
      bot.imap_client = some c →
      (c.searchResp sel "UNSEEN").result ≠ "OK" →
      Bot.get_unseen_uids bot sel =
        .error (.actionFailed bot.self_id (c.searchResp sel "UNSEEN"))) := by
  refine ⟨?_, rfl, ?_⟩
  · intro bot c sel l rest hc hok hlines
    simp only [Bot.get_unseen_uids, hc]
    rw [if_neg (by simp [hok])]
    rw [hlines]
  · intro bot c sel hc hne
    simp only [Bot.get_unseen_uids, hc]
    rw [if_pos hne]

/-- Claim C7 witness: on the concrete server whose UNSEEN search reports an
empty data line (an empty mailbox), the operation returns the empty list,
not an error. -/
theorem claim_C7_witness : Bot.get_unseen_uids botEmpty (some "INBOX") = .ok [] :=
  claim_C7.1 botEmpty cEmptySearch (some "INBOX") "" ["SEARCH completed"] rfl rfl rfl

/-! ## Claim C10 -/

/-- Claim C10: when the server reports non-OK to selecting the requested
mailbox, `get_mail_of_id_in_mailbox` returns no mail (and no selected
mailbox) rather than raising — a mailbox that cannot be selected is
indistinguishable at this interface from a mail that is not found. -/
theorem claim_C10 (parse_byte_mail : ParseByteMail) (bot : Bot) (c : ImapClient)
    (sel : SelState) (mail_id mailbox : String)
    (hc : bot.imap_client = some c)
    (hfail : (c.selectResp (mailboxWire mailbox)).result ≠ "OK") :
    Bot.get_mail_of_id_in_mailbox parse_byte_mail bot sel mail_id mailbox =
      .ok (none, none) := by
  simp only [Bot.get_mail_of_id_in_mailbox, hc, Bot.select_mailbox]
  rw [if_neg hfail]

/-- Claim C10 witness: the concrete server refusing every SELECT makes the
lookup return `none` without raising. -/
theorem claim_C10_witness :
    Bot.get_mail_of_id_in_mailbox parse0 botNoSelect (some "INBOX") "mid" "Sent" =
      .ok (none, none) :=
  claim_C10 parse0 botNoSelect cNoSelect (some "INBOX") "mid" "Sent" rfl (by decide)

/-! ## Claim C9 -/

/-- Claim C9 counterexample: the claim states that every session operation
invoked outside its required connection state raises `UninitializedSession`.
At the concrete input `botEmpty` with no mailbox selected (`sel = none`, so
the `MailboxSelected` precondition of the UNSEEN search does not hold), the
search proceeds and returns `.ok []` — the code checks only that the IMAP
client object exists, never the finer session state. -/
theorem claim_C9_counterexample :
    Bot.get_unseen_uids botEmpty none = .ok [] := rfl

/-- Claim C9 amended: session operations raise `UninitializedSession`
exactly when the IMAP client is uninitialized (`imap_client is None`); an
operation invoked in a finer wrong state (connected but not authenticated,
or no mailbox selected) is not guarded — it proceeds and surfaces whatever
the server reports. -/
theorem claim_C9_amended (self_id : String) (info : BotInfo)
    (parse_byte_mail : ParseByteMail) (sel : SelState) (uid mail_id mailbox : String) :
    Bot.login ⟨self_id, info, none⟩ = .error (.uninitializedException "IMAP client") ∧
    Bot.logout ⟨self_id, info, none⟩ = .error (.uninitializedException "IMAP client") ∧
    Bot.select_mailbox ⟨self_id, info, none⟩ sel mailbox =
      .error (.uninitializedException "IMAP client") ∧
    Bot.get_unseen_uids ⟨self_id, info, none⟩ sel =
      .error (.uninitializedException "IMAP client") ∧
    Bot.get_mail_of_uid parse_byte_mail ⟨self_id, info, none⟩ sel uid =
      .error (.uninitializedException "IMAP client") ∧
    Bot.get_mail_of_id_in_mailbox parse_byte_mail ⟨self_id, info, none⟩ sel mail_id mailbox =
      .error (.uninitializedException "IMAP client") ∧
    Bot.get_mail_of_id parse_byte_mail ⟨self_id, info, none⟩ sel mail_id =
      .error (.uninitializedException "IMAP client") :=
  ⟨rfl, rfl, rfl, rfl, rfl, rfl, rfl⟩

/-! ## Claim C8 -/

/-- Claim C8: on an inbound `NewMailMessageEvent` with the default
`to_me = false`, the addressed-to-me check sets `to_me` to true exactly when
the account's own address appears, by exact match, among the ids of
`recipients_to`; the check is a pure function of the event and the bot
configuration (no network I/O is modelled or needed). -/
theorem claim_C8 (bot : Bot) (e : NewMailMessageEvent) (h : e.to_me = false) :
    check_to_me bot (.newMail e) =
      .newMail { e with to_me := decide (bot.bot_info.id ∈ e.recipients_to.map User.id) } := by
  obtain ⟨es, er, ei, et, ep⟩ := e
  dsimp only at h
  subst h
  simp only [check_to_me]
  by_cases hm : bot.bot_info.id ∈ List.map User.id er
  · simp [hm]
  · simp [hm]

/-- Claim C8 witness: the concrete event listing the account's own address
among its recipients gets `to_me = true`. -/
theorem claim_C8_witness :
    check_to_me bot0 (.newMail e8) = .newMail { e8 with to_me := true } :=
  claim_C8 bot0 e8 rfl

/-! ## Claim C5 -/

/-- Helper: the addressed-to-me check can only toggle `to_me`; it preserves
`in_reply_to` and `reply`. -/
theorem check_to_me_preserves (bot : Bot) (e e1 : NewMailMessageEvent)
    (h : check_to_me bot (.newMail e) = .newMail e1) :
    e1.in_reply_to = e.in_reply_to ∧ e1.reply = e.reply := by
  simp only [check_to_me] at h
  split at h <;> (injection h with h2; exact ⟨by rw [← h2], by rw [← h2]⟩)

/-- Claim C5: on an inbound `NewMailMessageEvent` with a present
`in_reply_to`, when the reply resolution raises any exception the reply
check swallows it: the event is left unchanged (reply stays absent), and
`handle_event` still hands the event onward (it delivers exactly the output
of the addressed-to-me check, whose reply field is still absent). -/
theorem claim_C5 (parse_byte_mail : ParseByteMail) (bot : Bot) (sel : SelState)
    (e : NewMailMessageEvent) (rid : String) (err : BotError)
    (hrid : e.in_reply_to = some rid)
    (hreply : e.reply = none)
    (herr : Bot.get_mail_of_id parse_byte_mail bot sel rid = .error err) :
    check_reply parse_byte_mail bot sel (.newMail e) = .newMail e ∧
    (∀ e1 : NewMailMessageEvent, check_to_me bot (.newMail e) = .newMail e1 →
      Bot.handle_event parse_byte_mail bot sel (.newMail e) = .newMail e1 ∧
      e1.reply = none) := by
  have hcr : ∀ e' : NewMailMessageEvent, e'.in_reply_to = some rid →
      check_reply parse_byte_mail bot sel (.newMail e') = .newMail e' := by
    intro e' h'
    simp only [check_reply, h', herr]
  refine ⟨hcr e hrid, ?_⟩
  intro e1 h1
  obtain ⟨hirt, hrp⟩ := check_to_me_preserves bot e e1 h1
  constructor
  · simp only [Bot.handle_event]
    rw [h1]
    exact hcr e1 (hirt.trans hrid)
  · rw [hrp, hreply]

/-- Claim C5 witness: with an uninitialized IMAP client the resolution of
the concrete event's `in_reply_to` raises, yet the event is delivered
unchanged with its reply still absent. -/
theorem claim_C5_witness :
    Bot.handle_event parse0 botNone none (.newMail e5) = .newMail e5 ∧
    e5.reply = none :=
  (claim_C5 parse0 botNone none e5 "prior-id" (.uninitializedException "IMAP client")
    rfl rfl rfl).2 e5 (by decide)

/-! ## Claim C3 -/

/-- Claim C3: for every send with a valid payload (a raw document, or a
segment Message with a nonempty recipient list): refused recipients raise
`ActionFailed` mapping each refused recipient's address to the server code
and message (both when the server refuses them all via
`SMTPRecipientsRefused` and when the response reports a partial refusal
dict); a response-level failure with no per-recipient breakdown raises
`ActionFailed` with the single entry keyed by the sending account's
address; a connection-level SMTP failure raises `NetworkError`; any other
exception propagates unchanged; a fully successful send returns no
value. -/
theorem claim_C3 (bot : Bot) (payload : OutboundPayload)
    (recipients : Option (List String))
    (hvalid : payload = .raw ∨ ∃ r rs, recipients = some (r :: rs)) :
    (∀ refused, Bot.send_mail bot payload recipients (.recipientsRefused refused) =
      .error (.actionFailedSmtp refused)) ∧
    (∀ code msg, Bot.send_mail bot payload recipients (.responseException code msg) =
      .error (.actionFailedSmtp [(bot.bot_info.id, code, msg)])) ∧
    Bot.send_mail bot payload recipients .smtpException = .error .networkError ∧
    (∀ tag, Bot.send_mail bot payload recipients (.otherException tag) =
      .error (.otherException tag)) ∧
    Bot.send_mail bot payload recipients (.success []) = .ok () ∧
    (∀ errs, errs ≠ [] → Bot.send_mail bot payload recipients (.success errs) =
      .error (.actionFailedSmtp errs)) := by
  have hsub : ∀ smtp, Bot.send_mail bot payload recipients smtp = smtp_submit bot smtp := by
    intro smtp
    rcases hvalid with hp | ⟨r, rs, hr⟩
    · subst hp
      cases recipients with
      | none => rfl
      | some l => cases l <;> rfl
    · subst hr
      cases payload <;> rfl
  refine ⟨fun refused => by rw [hsub]; rfl, fun code msg => by rw [hsub]; rfl,
    by rw [hsub]; rfl, fun tag => by rw [hsub]; rfl, by rw [hsub]; rfl,
    fun errs hne => ?_⟩
  rw [hsub]
  simp only [smtp_submit]
  rw [if_pos hne]

/-- Claim C3 witness: sending to two recipients where the server refuses
exactly one returns a failure keyed by that one recipient's address with its
server code and message. -/
theorem claim_C3_witness :
    Bot.send_mail bot0 (.message []) (some ["alice@example.com", "carol@example.com"])
      (.success [("alice@example.com", 550, "mailbox unavailable")]) =
      .error (.actionFailedSmtp [("alice@example.com", 550, "mailbox unavailable")]) :=
  (claim_C3 bot0 (.message []) (some ["alice@example.com", "carol@example.com"])
    (Or.inr ⟨"alice@example.com", ["carol@example.com"], rfl⟩)).2.2.2.2.2
    [("alice@example.com", 550, "mailbox unavailable")] (by decide)

end MailAdapter
